import Mathlib

/-!
# Verification of the shell-ai-ask conversation / provider-adapter core

Shallow embedding of the Python sources of the `shell-ai-ask` terminal chat
client, and proofs about it:

* `src/conversation.py` — the `Conversation` class (bounded message history
  with a pinned system message, `add_message`, `send_message`,
  `clear_history`, `set_system_message`);
* `src/models.py` — the OpenAI-compatible and Qwen provider adapters
  (`generate`, `_stream_generate`, `_non_stream_generate`) and the factory
  `get_model_instance`;
* `src/config.py` — the slice of `Config` the factory reads
  (`get_model_config`, `proxy`).

Modelling conventions:

* Python strings are Lean `String`s; where the Python slices or compares by
  code point we work on `String.data : List Char`, which matches Python's
  per-code-point indexing exactly (Lean's byte-position API would not).
* Python `list` is `List`; a negative-start slice `xs[-k:]` is embedded by
  `pySliceLast`, including Python's quirk that `xs[-0:]` is the whole list.
* Dict-shaped JSON values are the inductive `Json`; `json.loads` is an
  abstract parameter `parse : String → Option Json` (`none` = the call
  raised), since the JSON parser is the Python standard library, not this
  repository.
* The HTTP exchange performed by `requests.post` is a `PostResult`: either
  the call raised (`raised e`) or produced a response with a status code,
  body text, an `iter_lines` line list, and a `response.json()` outcome.
* A Python generator consumed by a caller is summarised by `StreamOutcome`:
  the fragments it yields, plus the exception (if any) that escapes its body
  to the consumer.  Crucially, calling a generator function does **not** run
  its body, so exceptions raised by `requests.post` inside
  `_stream_generate` occur at the consumer's first `next()`, outside the
  `try` of `generate`.
-/

/-! ## Data model: messages and conversations (src/conversation.py) -/

/-- One chat message: the Python dict `{"role": ..., "content": ...}`. -/
structure Message where
  role : String
  content : String
deriving DecidableEq, Repr

/-- The mutable state of `Conversation` (`self.max_history`,
`self.messages`).  The adapter reference `self.model` is not stored here; it
is passed explicitly to `send_message`.  `max_history` is a Python `int`
configured positive; it is modelled as `Nat` (for `maxHistory = 0` the
Python slice index `-(max_history-1)` would flip sign, a case no caller
produces and no claim touches). -/
structure Conversation where
  maxHistory : Nat
  messages : List Message
deriving DecidableEq, Repr

/-- Python's negative-start slice `xs[-k:]` for `k : Nat`, including the
quirk that `-0 = 0`, so `xs[-0:]` is the **whole** list rather than the
last zero elements. -/
def pySliceLast (xs : List Message) (k : Nat) : List Message :=
  if k = 0 then xs else xs.drop (xs.length - k)

/-- The repeated Python guard
`self.messages and self.messages[0]["role"] == "system"`. -/
def startsWithSystem (msgs : List Message) : Bool :=
  match msgs with
  | m0 :: _ => m0.role == "system"
  | [] => false

/-- `Conversation.add_message`:
append `{"role": role, "content": content}`; if the history now exceeds
`max_history`, keep `[self.messages[0]] + self.messages[-(max_history-1):]`
when a system message is pinned at index 0, else keep
`self.messages[-max_history:]`.  `msgs.take 1` is `[msgs[0]]` (the appended
list is never empty). -/
def add_message (c : Conversation) (role content : String) : Conversation :=
  let msgs := c.messages ++ [⟨role, content⟩]
  if msgs.length > c.maxHistory then
    if startsWithSystem msgs then
      { c with messages := msgs.take 1 ++ pySliceLast msgs (c.maxHistory - 1) }
    else
      { c with messages := pySliceLast msgs c.maxHistory }
  else
    { c with messages := msgs }

/-- `Conversation.clear_history`: reset to `[]`, or to `[messages[0]]` when
a system message is pinned at index 0. -/
def clear_history (c : Conversation) : Conversation :=
  match c.messages with
  | m0 :: _ =>
    if m0.role == "system" then { c with messages := [m0] }
    else { c with messages := [] }
  | [] => { c with messages := [] }

/-- `Conversation.set_system_message`: if `messages[0]` is already a system
message, assign `messages[0]["content"] = content` in place; otherwise
`messages.insert(0, {"role": "system", "content": content})`.  No history
bound is applied here. -/
def set_system_message (c : Conversation) (content : String) : Conversation :=
  match c.messages with
  | m0 :: rest =>
    if m0.role == "system" then
      { c with messages := { m0 with content := content } :: rest }
    else
      { c with messages := ⟨"system", content⟩ :: m0 :: rest }
  | [] => { c with messages := [⟨"system", content⟩] }

/-- An adapter as `send_message` sees it: `generate(messages, stream=True)`
is a fragment sequence, `generate(messages, stream=False)` a string, each a
function of the message history (the fixed configuration is baked in). -/
structure ModelFn where
  streamGen : List Message → List String
  nonStreamGen : List Message → String

/-- `Conversation.send_message`: add the user message; in streaming mode
concatenate the fragments (each is also written to stdout, which we do not
model), add the accumulated text as the assistant message and return `None`;
in non-streaming mode add the returned string and return it. -/
def send_message (model : ModelFn) (c : Conversation) (message : String)
    (stream : Bool) : Conversation × Option String :=
  let c1 := add_message c "user" message
  if stream then
    let responseText := String.join (model.streamGen c1.messages)
    (add_message c1 "assistant" responseText, none)
  else
    let responseText := model.nonStreamGen c1.messages
    (add_message c1 "assistant" responseText, some responseText)

/-- A sequence of `add_message` calls, oldest first. -/
def applyCalls (c : Conversation) (calls : List (String × String)) : Conversation :=
  calls.foldl (fun c rc => add_message c rc.1 rc.2) c

/-! ## JSON values and the adapter environment (src/models.py) -/

/-- JSON values, as far as the adapters inspect them.  Lines arrive as
strings; `json.loads` is kept abstract (a `String → Option Json` parameter,
`none` meaning the call raised). -/
inductive Json where
  | null : Json
  | str : String → Json
  | num : Int → Json
  | bool : Bool → Json
  | arr : List Json → Json
  | obj : List (String × Json) → Json

/-- Dict key access: `data[k]` / `data.get(k)` on a JSON object; `none` for
a missing key or a non-dict value (where the Python would raise `KeyError` /
`TypeError` / `AttributeError` — every use below sits inside a `try` whose
handler's net effect coincides with the missing-key path, as noted at each
use site). -/
def jGet (j : Json) (k : String) : Option Json :=
  match j with
  | .obj fields => lookupJ fields k
  | _ => none
where
  lookupJ : List (String × Json) → String → Option Json
  | [], _ => none
  | (k2, v) :: rest, k => if k2 = k then some v else lookupJ rest k

/-- The parts of a `requests` response the adapters read: the status code,
the body text (used in error messages), the decoded `iter_lines` lines for
streaming, and the `response.json()` outcome for non-streaming (`none` =
decoding raised, with `jsonErr` the exception text). -/
structure HttpResponse where
  statusCode : Nat
  text : String
  lines : List String
  jsonBody : Option Json
  jsonErr : String

/-- Outcome of one `requests.post` call: either the call raised (connection
failure, timeout, ...) with message `e`, or it returned a response. -/
inductive PostResult where
  | raised (e : String) : PostResult
  | resp (r : HttpResponse) : PostResult

/-- What the consumer of a Python generator observes: the fragments yielded,
and the exception (if any) that escapes the generator body. -/
structure StreamOutcome where
  fragments : List String
  raised : Option String
deriving DecidableEq, Repr

/-- Python `line.startswith(pat)`, by code points. -/
def pyStartswith (s pat : String) : Bool :=
  s.data.take pat.data.length == pat.data

/-- Python `s[n:]`, by code points (`n ≥ 0`). -/
def pyDropChars (s : String) (n : Nat) : String :=
  ⟨s.data.drop n⟩

/-- The prefix handling in `OpenAIModel._stream_generate`:
`if line.startswith('data: '): line = line[6:]`. -/
def stripDataTag (line : String) : String :=
  if pyStartswith line "data: " then pyDropChars line 6 else line

/-- The fragment (if any) one parsed line contributes in
`OpenAIModel._stream_generate`: `choices[0].get('delta', {}).get('content')`
is yielded when truthy.  Every non-yielding path of the Python — `'choices'`
absent, `choices` empty or not indexable (the raised `TypeError` is caught
by the surrounding `try` and the loop continues), `delta` or `content`
absent, `content` empty — contributes no fragment and continues the loop,
so they all collapse to `none`.  A non-string `content` would be yielded
raw by the Python and then crash the consumer's string accumulator; JSON
values in the `content` position are modelled as strings. -/
def streamLineFragment (j : Json) : Option String :=
  match jGet j "choices" with
  | some (.arr (c0 :: _)) =>
    match jGet c0 "delta" with
    | some d =>
      match jGet d "content" with
      | some (.str s) => if s = "" then none else some s
      | _ => none
    | none => none
  | _ => none

/-- The line loop of `OpenAIModel._stream_generate` (after the 200 check):
skip empty lines, strip the `data: ` tag, `break` on the `[DONE]` sentinel,
otherwise parse the line and yield its fragment if any (a parse failure is
caught, logged and skipped). -/
def openaiStreamLines (parse : String → Option Json) : List String → List String
  | [] => []
  | line :: rest =>
    if line = "" then openaiStreamLines parse rest
    else if stripDataTag line = "[DONE]" then []
    else
      match parse (stripDataTag line) with
      | none => openaiStreamLines parse rest
      | some j =>
        match streamLineFragment j with
        | some c => c :: openaiStreamLines parse rest
        | none => openaiStreamLines parse rest

/-- `OpenAIModel._stream_generate`, as observed by the consumer of the
returned generator.  The generator body runs only when the consumer pulls,
so an exception from `requests.post` escapes to the consumer at the first
`next()` — the `try` of `generate` has already returned the generator and
cannot catch it.  A non-200 status yields exactly one error fragment and
returns. -/
def openaiStreamGenerate (parse : String → Option Json) (post : PostResult) :
    StreamOutcome :=
  match post with
  | .raised e => { fragments := [], raised := some e }
  | .resp r =>
    if r.statusCode ≠ 200 then
      { fragments := ["API请求失败：" ++ toString r.statusCode ++ " " ++ r.text]
        raised := none }
    else
      { fragments := openaiStreamLines parse r.lines, raised := none }

/-- Python's `needle in xs` for a list value: `==` against each element,
where a string compares equal only to an equal string (never to a number,
list, dict, boolean or `None`). -/
def pyMemStr (needle : String) (xs : List Json) : Bool :=
  xs.any (fun x =>
    match x with
    | .str s => s == needle
    | _ => false)

/-- Python's `needle in hay` for two strings: the substring test, by code
points. -/
def pyContainsSub (hay needle : String) : Bool :=
  (List.range (hay.data.length + 1)).any
    (fun i => (hay.data.drop i).take needle.data.length == needle.data)

/-- The tail of `OpenAIModel._non_stream_generate` once `'choices' in data`
has succeeded on a dict body, applied to the `choices` value:
`len(data['choices']) > 0` and then `data['choices'][0]['message']['content']`,
inside the `try`.  Python semantics per shape of the value:
* `len` accepts a list, string or dict and is `0` for `[]`, `""`, `{}` —
  the guard fails and the function returns `""`;
* a non-empty list proceeds to its first element, whose `['message']` /
  `['content']` lookups must find dict keys — a missing key (`KeyError`)
  or a non-dict operand (`TypeError`) is caught and yields the error
  string (the Python interpolates the exception text, which the model
  abbreviates — no claim inspects it);
* a non-empty string indexes to a one-character string whose `['message']`
  raises `TypeError`; a non-empty dict raises `KeyError` on the integer
  index `0`; a number, boolean or `None` makes `len` itself raise — all
  caught, all the error string.
As in the streaming path, `content` values are modelled as strings (the
Python would return a non-string `content` raw). -/
def openaiChoicesExtract (cs : Json) : String :=
  match cs with
  | .arr [] => ""
  | .arr (c0 :: _) =>
    match jGet c0 "message" with
    | some m =>
      match jGet m "content" with
      | some (.str s) => s
      | _ => "解析响应时出错：missing content"
    | none => "解析响应时出错：missing message"
  | .str ⟨[]⟩ => ""
  | .obj [] => ""
  | _ => "解析响应时出错：bad choices value"

/-- Extraction in `OpenAIModel._non_stream_generate` after a 200 status:
`data = response.json()`; return `data['choices'][0]['message']['content']`
when `'choices' in data and len(data['choices']) > 0`, else `""`; any
exception is caught and an error string `"解析响应时出错：..."` returned.
Python's `'choices' in data` depends on the shape of the decoded body:
* decoding failed (`body = none`): `response.json()` raised → error string;
* a dict: key test; absent → `""`, present → continue with the value
  (`openaiChoicesExtract`);
* a list: element test — true only if some element *is* the string
  `"choices"`, in which case the subsequent `data['choices']` indexes the
  list with a string and raises `TypeError` → error string; otherwise `""`;
* a string: substring test — if `"choices"` occurs, `data['choices']`
  raises `TypeError` → error string; otherwise `""`;
* a number, boolean or `None`: the membership test itself raises
  `TypeError` → error string. -/
def openaiNonStreamExtract (body : Option Json) (jsonErr : String) : String :=
  match body with
  | none => "解析响应时出错：" ++ jsonErr
  | some j =>
    match j with
    | .obj fields =>
      match jGet (.obj fields) "choices" with
      | none => ""
      | some cs => openaiChoicesExtract cs
    | .arr xs =>
      if pyMemStr "choices" xs then "解析响应时出错：list indices must be integers"
      else ""
    | .str s =>
      if pyContainsSub s "choices" then "解析响应时出错：string indices must be integers"
      else ""
    | _ => "解析响应时出错：argument not iterable"

/-- `OpenAIModel._non_stream_generate` runs eagerly inside the `try` of
`generate`, so a raising `requests.post` is caught there and turned into
the `"OpenAI API请求失败：..."` string; a non-200 status returns the
`"API请求失败：..."` string; otherwise the body is extracted. -/
def openaiGenerateNonStream (post : PostResult) : String :=
  match post with
  | .raised e => "OpenAI API请求失败：" ++ e
  | .resp r =>
    if r.statusCode ≠ 200 then
      "API请求失败：" ++ toString r.statusCode ++ " " ++ r.text
    else
      openaiNonStreamExtract r.jsonBody r.jsonErr

/-- The fragment (if any) one parsed line contributes in
`QwenModel._stream_generate`: `data.get("output", {}).get("text", "")` is
yielded when truthy.  A missing `output` defaults to `{}`, a missing `text`
to `""`; a non-dict `data` or `output` raises `AttributeError` inside the
`try`, which is caught and the loop continues — all of these contribute no
fragment, so they collapse to `none`.  As for the OpenAI family, `text`
values are modelled as strings. -/
def qwenLineFragment (j : Json) : Option String :=
  match jGet j "output" with
  | some o =>
    match jGet o "text" with
    | some (.str s) => if s = "" then none else some s
    | _ => none
  | none => none

/-- The line loop of `QwenModel._stream_generate` (after the 200 check):
skip empty lines, parse each line directly (no `data: ` tag, no sentinel)
and yield its fragment if any; a parse failure is caught, logged and
skipped. -/
def qwenStreamLines (parse : String → Option Json) : List String → List String
  | [] => []
  | line :: rest =>
    if line = "" then qwenStreamLines parse rest
    else
      match parse line with
      | none => qwenStreamLines parse rest
      | some j =>
        match qwenLineFragment j with
        | some c => c :: qwenStreamLines parse rest
        | none => qwenStreamLines parse rest

/-- `QwenModel._stream_generate`, observed by the consumer.  Exactly as for
the OpenAI family, a raising `requests.post` escapes to the consumer at the
first `next()` (the generator body runs outside the `try` of `generate`); a
non-200 status yields one error fragment and returns. -/
def qwenStreamGenerate (parse : String → Option Json) (post : PostResult) :
    StreamOutcome :=
  match post with
  | .raised e => { fragments := [], raised := some e }
  | .resp r =>
    if r.statusCode ≠ 200 then
      { fragments := ["API请求失败：" ++ toString r.statusCode ++ " " ++ r.text]
        raised := none }
    else
      { fragments := qwenStreamLines parse r.lines, raised := none }

/-- Extraction in `QwenModel._non_stream_generate` after a 200 status:
`return data.get("output", {}).get("text", "")`, with any exception (JSON
decode failure, non-dict `data` or `output`) caught and turned into
`"解析响应时出错：..."`. -/
def qwenNonStreamExtract (body : Option Json) (jsonErr : String) : String :=
  match body with
  | none => "解析响应时出错：" ++ jsonErr
  | some j =>
    match j with
    | .obj _ =>
      match jGet j "output" with
      | none => ""
      | some (.obj os) =>
        match jGet (.obj os) "text" with
        | none => ""
        | some (.str s) => s
        | some _ => ""
      | some _ => "解析响应时出错：bad output value"
    | _ => "解析响应时出错：bad body value"

/-- `QwenModel._non_stream_generate` runs eagerly inside the `try` of
`generate`, so a raising `requests.post` is caught there and becomes the
`"通义千问API请求失败：..."` string. -/
def qwenGenerateNonStream (post : PostResult) : String :=
  match post with
  | .raised e => "通义千问API请求失败：" ++ e
  | .resp r =>
    if r.statusCode ≠ 200 then
      "API请求失败：" ++ toString r.statusCode ++ " " ++ r.text
    else
      qwenNonStreamExtract r.jsonBody r.jsonErr

/-! ## Configuration and the adapter factory (src/config.py, src/models.py) -/

/-- One entry of the persisted `models` table: `{api_key, model, api_base}`.
A key present in the JSON file but absent from a dict is modelled as its
falsy default (`""`), which the factory treats identically. -/
structure ModelConfig where
  api_key : String
  model : String
  api_base : String
deriving DecidableEq, Repr

/-- `{enabled, http, https}`. -/
structure ProxyConfig where
  enabled : Bool
  http : String
  https : String
deriving DecidableEq, Repr

/-- The slice of `Config` the factory reads: the `models` dict (an
association list keyed by provider name) and the `proxy` dict.  The other
persisted fields (`default_model`, `max_history`, `stream_output`) are
never touched by `get_model_instance`. -/
structure Config where
  models : List (String × ModelConfig)
  proxy : ProxyConfig
deriving DecidableEq, Repr

/-- `Config.get_model_config`: `self.config.get("models", {}).get(name, {})`.
The Python returns `{}` for a missing entry and the factory immediately
treats any falsy dict as absence (`if not model_config: return None`), so
absence is modelled as `none`.  (A present-but-empty dict entry, which the
Python would also treat as absent, is not representable with record-typed
entries; no claim involves one.) -/
def get_model_config (c : Config) (name : String) : Option ModelConfig :=
  lookupEntry c.models name
where
  lookupEntry : List (String × ModelConfig) → String → Option ModelConfig
  | [], _ => none
  | (k, v) :: rest, name => if k = name then some v else lookupEntry rest name

/-- In-place update of the stored entry, as performed through dict aliasing:
`get_model_config` returns a reference into `config.config["models"]`, so
`model_config["api_key"] = api_key` rewrites the stored entry. -/
def setModelEntry (ms : List (String × ModelConfig)) (name : String)
    (mc : ModelConfig) : List (String × ModelConfig) :=
  ms.map (fun p => if p.1 = name then (p.1, mc) else p)

/-- Python `str.upper()` on one character (ASCII; provider names are
ASCII). -/
def asciiUpper (c : Char) : Char :=
  if 97 ≤ c.toNat ∧ c.toNat ≤ 122 then Char.ofNat (c.toNat - 32) else c

/-- Python `str.lower()` on one character (ASCII). -/
def asciiLower (c : Char) : Char :=
  if 65 ≤ c.toNat ∧ c.toNat ≤ 90 then Char.ofNat (c.toNat + 32) else c

/-- Python `s.upper()`, by code points. -/
def pyUpper (s : String) : String :=
  ⟨s.data.map asciiUpper⟩

/-- Python `s.lower()`, by code points. -/
def pyLower (s : String) : String :=
  ⟨s.data.map asciiLower⟩

/-- The process environment, for `os.environ.get`. -/
structure Env where
  vars : List (String × String)

/-- `os.environ.get name` — `none` when unset. -/
def envGet (env : Env) (name : String) : Option String :=
  lookupVar env.vars name
where
  lookupVar : List (String × String) → String → Option String
  | [], _ => none
  | (k, v) :: rest, name => if k = name then some v else lookupVar rest name

/-- The adapter family `get_model_instance` dispatches to. -/
inductive ModelFamily where
  | openai : ModelFamily
  | deepseek : ModelFamily
  | qwen : ModelFamily
deriving DecidableEq, Repr

/-- A constructed adapter: its family and the configuration captured by
`BaseModel.__init__` (`self.config`, `self.proxy_config`). -/
structure ModelInstance where
  family : ModelFamily
  config : ModelConfig
  proxy : ProxyConfig
deriving DecidableEq, Repr

/-- The final `if model_name.lower() == ... / elif ... / else` dispatch of
`get_model_instance`: the adapter family constructed for a recognized
provider name, `none` for an unrecognized one. -/
def dispatchFamily (name : String) : Option ModelFamily :=
  if pyLower name = "openai" then some .openai
  else if pyLower name = "deepseek" then some .deepseek
  else if pyLower name = "qwen" then some .qwen
  else none

/-- `get_model_instance(model_name, config)`:
look the entry up (`if not model_config: return None`); if its `api_key` is
falsy, read `os.environ.get(f"{model_name.upper()}_API_KEY")` and, if that
is truthy, assign it into the entry — mutating the stored configuration
through dict aliasing — else warn and return `None`; finally dispatch on
`model_name.lower()` to `OpenAIModel` / `DeepSeekModel` / `QwenModel`, or
warn and return `None` for an unrecognized name.  The returned pair carries
the stored configuration after the call, so the aliasing side effect is
observable. -/
def get_model_instance (model_name : String) (config : Config) (env : Env) :
    Option ModelInstance × Config :=
  match get_model_config config model_name with
  | none => (none, config)
  | some mc =>
    let step : Option (ModelConfig × Config) :=
      if mc.api_key = "" then
        match envGet env (pyUpper model_name ++ "_API_KEY") with
        | some k =>
          if k = "" then none
          else
            let mc2 := { mc with api_key := k }
            some (mc2, { config with models := setModelEntry config.models model_name mc2 })
        | none => none
      else some (mc, config)
    match step with
    | none => (none, config)
    | some (mc2, config2) =>
      match dispatchFamily model_name with
      | some fam => (some ⟨fam, mc2, config2.proxy⟩, config2)
      | none => (none, config2)

/-! ## Derived definitions used by the proofs -/

/-- The fragments contributed by one non-sentinel line of the OpenAI stream
loop: none for an empty line, a failed parse or a line without usable
`delta.content`; one fragment otherwise. -/
def lineFrags (parse : String → Option Json) (line : String) : List String :=
  if line = "" then []
  else
    match parse (stripDataTag line) with
    | none => []
    | some j =>
      match streamLineFragment j with
      | some c => [c]
      | none => []

/-- The fixed fake adapter of the spec's equivalence test: streaming yields
`"Hel","lo"`, non-streaming returns `"Hello"`. -/
def demoModel : ModelFn :=
  { streamGen := fun _ => ["Hel", "lo"], nonStreamGen := fun _ => "Hello" }

/-- A concrete stand-in for `json.loads` used by closed witnesses: it
recognises one line, `"ok"`, as a one-choice delta carrying `"Hi"`, and
fails on everything else. -/
def parseDemo : String → Option Json := fun l =>
  if l = "ok" then
    some (.obj [("choices", .arr [.obj [("delta", .obj [("content", .str "Hi")])]])])
  else none

/-- A stored configuration whose `openai` entry has an empty key. -/
def cfgDemo : Config :=
  { models := [("openai", ⟨"", "gpt-3.5-turbo", "https://api.openai.com/v1/"⟩)]
    proxy := ⟨false, "", ""⟩ }

/-- An environment supplying the key through `OPENAI_API_KEY`. -/
def envDemo : Env :=
  { vars := [("OPENAI_API_KEY", "sk-test")] }

/-! ## Helper lemmas -/

theorem add_message_maxHistory (c : Conversation) (role content : String) :
    (add_message c role content).maxHistory = c.maxHistory := by
  unfold add_message
  dsimp only
  split
  · split <;> rfl
  · rfl

theorem add_message_head_of_system (c : Conversation) (m0 : Message)
    (role content : String) (h0 : c.messages.head? = some m0)
    (hrole : m0.role = "system") :
    (add_message c m0.role content).messages.head? = some m0 ∧
    (add_message c role content).messages.head? = some m0 := by
  suffices h : ∀ r x : String, (add_message c r x).messages.head? = some m0 from
    ⟨h m0.role content, h role content⟩
  intro r x
  obtain ⟨rest, hmsgs⟩ : ∃ rest, c.messages = m0 :: rest := by
    cases hm : c.messages with
    | nil => rw [hm] at h0; cases h0
    | cons a t =>
      rw [hm] at h0
      simp only [List.head?_cons, Option.some.injEq] at h0
      exact ⟨t, by rw [h0]⟩
  unfold add_message
  dsimp only
  rw [hmsgs]
  split <;> simp_all [startsWithSystem, hrole]

/-! ## Claim theorems: conversation management -/

/-- C1 (code bug): the bounded-history invariant fails at
`max_history = 1` with a pinned system message.  Starting from the
bound-satisfying state `[system]`, one `add_message("user", "hi")` leaves
`[system, system, user]`: the Python slice `messages[-(max_history-1):]`
is `messages[-0:]`, the *whole* list, so the history grows (duplicating
the pinned message) instead of being trimmed — contradicting both the
claim and the code's own comment that the earliest messages are deleted
once the limit is exceeded. -/
theorem add_message_bound_fails_at_one :
    ([(⟨"system", "s"⟩ : Message)].length ≤ 1) ∧
    (add_message ⟨1, [⟨"system", "s"⟩]⟩ "user" "hi").messages =
      [⟨"system", "s"⟩, ⟨"system", "s"⟩, ⟨"user", "hi"⟩] ∧
    ¬ ((add_message ⟨1, [⟨"system", "s"⟩]⟩ "user" "hi").messages.length ≤ 1) := by
  decide

/-- C4 (confirmed): system pinning — for any `max_history ≥ 1`, if
`messages[0]` is a system message, it is still `messages[0]` after any
sequence of further `add_message` calls. -/
theorem system_pinned (c : Conversation) (calls : List (String × String))
    (m0 : Message) (hmh : 1 ≤ c.maxHistory) (h0 : c.messages.head? = some m0)
    (hrole : m0.role = "system") :
    (applyCalls c calls).messages.head? = some m0 := by
  induction calls generalizing c with
  | nil => exact h0
  | cons rc rest ih =>
    have hstep : (add_message c rc.1 rc.2).messages.head? = some m0 :=
      (add_message_head_of_system c m0 rc.1 rc.2 h0 hrole).2
    have hmh2 : 1 ≤ (add_message c rc.1 rc.2).maxHistory := by
      rw [add_message_maxHistory]; exact hmh
    exact ih (add_message c rc.1 rc.2) hmh2 hstep

/-- Witness for C4 at a concrete state and call sequence. -/
theorem system_pinned_witness :
    (applyCalls ⟨2, [⟨"system", "s"⟩]⟩
      [("user", "a"), ("assistant", "b"), ("user", "c")]).messages.head? =
      some ⟨"system", "s"⟩ :=
  system_pinned ⟨2, [⟨"system", "s"⟩]⟩ _ ⟨"system", "s"⟩
    (by decide) (by decide) (by decide)

/-- C10 (confirmed): `clear_history` leaves `[]` when no system message is
pinned at index 0, and exactly the one-element list holding the pinned
system message otherwise. -/
theorem clear_history_spec (c : Conversation) :
    (startsWithSystem c.messages = false → (clear_history c).messages = []) ∧
    (∀ m0 rest, c.messages = m0 :: rest → m0.role = "system" →
      (clear_history c).messages = [m0]) := by
  constructor
  · intro h
    cases hm : c.messages with
    | nil => simp [clear_history, hm]
    | cons a t =>
      rw [hm] at h
      simp only [startsWithSystem] at h
      simp [clear_history, hm, h]
  · intro m0 rest heq hrole
    simp [clear_history, heq, hrole]

/-- Witness for C10 in both cases. -/
theorem clear_history_spec_witness :
    (clear_history ⟨4, [⟨"user", "u"⟩, ⟨"assistant", "a"⟩]⟩).messages = [] ∧
    (clear_history ⟨4, [⟨"system", "s"⟩, ⟨"user", "u"⟩]⟩).messages =
      [⟨"system", "s"⟩] :=
  ⟨(clear_history_spec ⟨4, [⟨"user", "u"⟩, ⟨"assistant", "a"⟩]⟩).1 (by decide),
   (clear_history_spec ⟨4, [⟨"system", "s"⟩, ⟨"user", "u"⟩]⟩).2
     ⟨"system", "s"⟩ [⟨"user", "u"⟩] rfl rfl⟩

/-- C2 (counterexample): `set_system_message` does **not** re-apply the
history bound.  With `max_history = 1` and history `[user]`, inserting a
system message leaves two messages, exceeding the bound. -/
theorem set_system_message_exceeds_bound :
    (set_system_message ⟨1, [⟨"user", "u"⟩]⟩ "s").messages =
      [⟨"system", "s"⟩, ⟨"user", "u"⟩] ∧
    ¬ ((set_system_message ⟨1, [⟨"user", "u"⟩]⟩ "s").messages.length ≤ 1) := by
  decide

/-- C2 (amended): if `messages[0]` is already a system message its content
is replaced in place and every other message is unchanged; otherwise a new
system message is inserted at index 0 shifting the rest right.  The history
bound is not re-applied, so the length may exceed `max_history` after the
call. -/
theorem set_system_message_spec (c : Conversation) (content : String) :
    (∀ m0 rest, c.messages = m0 :: rest → m0.role = "system" →
      (set_system_message c content).messages =
        { m0 with content := content } :: rest) ∧
    (startsWithSystem c.messages = false →
      (set_system_message c content).messages =
        ⟨"system", content⟩ :: c.messages) := by
  constructor
  · intro m0 rest heq hrole
    simp [set_system_message, heq, hrole]
  · intro h
    cases hm : c.messages with
    | nil => simp [set_system_message, hm]
    | cons a t =>
      rw [hm] at h
      simp only [startsWithSystem] at h
      simp [set_system_message, hm, h]

/-- Witness for C2's amended statement in both cases. -/
theorem set_system_message_spec_witness :
    (set_system_message ⟨3, [⟨"system", "old"⟩, ⟨"user", "u"⟩]⟩ "new").messages =
      [⟨"system", "new"⟩, ⟨"user", "u"⟩] ∧
    (set_system_message ⟨3, [⟨"user", "u"⟩]⟩ "sys").messages =
      [⟨"system", "sys"⟩, ⟨"user", "u"⟩] :=
  ⟨(set_system_message_spec ⟨3, [⟨"system", "old"⟩, ⟨"user", "u"⟩]⟩ "new").1
     ⟨"system", "old"⟩ [⟨"user", "u"⟩] rfl rfl,
   (set_system_message_spec ⟨3, [⟨"user", "u"⟩]⟩ "sys").2 (by decide)⟩

/-- C9 (confirmed): for any adapter whose streamed fragments concatenate to
exactly its non-streaming reply, `send_message` leaves the same final
history in both modes — the user message followed by one assistant message
holding the concatenated text, trimmed identically. -/
theorem send_message_stream_equiv (m : ModelFn) (c : Conversation)
    (text : String)
    (h : ∀ msgs, String.join (m.streamGen msgs) = m.nonStreamGen msgs) :
    (send_message m c text true).1 = (send_message m c text false).1 ∧
    (send_message m c text true).1 =
      add_message (add_message c "user" text) "assistant"
        (String.join (m.streamGen (add_message c "user" text).messages)) := by
  unfold send_message
  simp [h]

/-- Witness for C9 on the spec's fake adapter (`"Hel","lo"` / `"Hello"`). -/
theorem send_message_stream_equiv_witness :
    (send_message demoModel ⟨10, []⟩ "hi" true).1 =
      (send_message demoModel ⟨10, []⟩ "hi" false).1 :=
  (send_message_stream_equiv demoModel ⟨10, []⟩ "hi" (fun _ => rfl)).1

/-! ## Claim theorems: streaming adapters -/

theorem openaiStreamLines_cons (parse : String → Option Json) (l : String)
    (xs : List String) (hl : stripDataTag l ≠ "[DONE]") :
    openaiStreamLines parse (l :: xs) =
      lineFrags parse l ++ openaiStreamLines parse xs := by
  rw [openaiStreamLines]
  unfold lineFrags
  by_cases hle : l = ""
  · rw [if_pos hle, if_pos hle, List.nil_append]
  · rw [if_neg hle, if_neg hle, if_neg hl]
    rcases parse (stripDataTag l) with _ | j
    · simp
    · rcases hf : streamLineFragment j with _ | c <;> simp [hf]

theorem openaiStreamLines_sentinel (parse : String → Option Json)
    (s : String) (xs : List String) (hs : stripDataTag s = "[DONE]") :
    openaiStreamLines parse (s :: xs) = [] := by
  have hsne : s ≠ "" := by
    intro h
    rw [h] at hs
    exact absurd hs (by decide)
  rw [openaiStreamLines, if_neg hsne, if_pos hs]

/-- C3 (code bug): in streaming mode a transport error is *not* surfaced as
an error fragment.  `_stream_generate` is a generator, so its body — and
with it the raising `requests.post` — runs only at the consumer's first
`next()`, after `generate`'s `try` has already returned the generator; the
`error_generator` fallback in `generate`'s `except` never fires for
streaming.  At the failing input (a connection-refused POST), both adapter
families yield no fragment and let the exception reach the consumer,
where the claim requires exactly one error fragment and a clean end. -/
theorem stream_transport_error_escapes :
    (openaiStreamGenerate (fun _ => none) (.raised "Connection refused")).fragments = [] ∧
    (openaiStreamGenerate (fun _ => none) (.raised "Connection refused")).raised =
      some "Connection refused" ∧
    (qwenStreamGenerate (fun _ => none) (.raised "Connection refused")).fragments = [] ∧
    (qwenStreamGenerate (fun _ => none) (.raised "Connection refused")).raised =
      some "Connection refused" :=
  ⟨rfl, rfl, rfl, rfl⟩

/-- C7 (confirmed): sentinel termination — for any streamed
OpenAI-compatible response, the first line whose payload (after removing a
`data: ` tag) is `[DONE]` yields no fragment and ends the sequence exactly
there: the overall fragments are exactly those of the lines before it, and
starting at the sentinel nothing is yielded regardless of later lines. -/
theorem sentinel_termination (parse : String → Option Json)
    (pre rest : List String) (s : String) (hs : stripDataTag s = "[DONE]")
    (hpre : ∀ l ∈ pre, stripDataTag l ≠ "[DONE]") :
    openaiStreamLines parse (pre ++ s :: rest) = openaiStreamLines parse pre ∧
    openaiStreamLines parse (s :: rest) = [] := by
  refine ⟨?_, openaiStreamLines_sentinel parse s rest hs⟩
  induction pre with
  | nil =>
    simpa using openaiStreamLines_sentinel parse s rest hs
  | cons l pre ih =>
    have hl : stripDataTag l ≠ "[DONE]" := hpre l (List.mem_cons_self l pre)
    have hpre2 : ∀ l2 ∈ pre, stripDataTag l2 ≠ "[DONE]" :=
      fun l2 h2 => hpre l2 (List.mem_cons_of_mem l h2)
    rw [List.cons_append, openaiStreamLines_cons parse l _ hl,
      openaiStreamLines_cons parse l pre hl, ih hpre2]

/-- Witness for C7: two content lines, a sentinel, then a trailing line. -/
theorem sentinel_termination_witness :
    openaiStreamLines
      (fun l => if l = "x" then
        some (.obj [("choices", .arr [.obj [("delta", .obj [("content", .str "Hi")])]])])
      else none)
      (["data: x", "zzz"] ++ "data: [DONE]" :: ["data: x"]) =
      openaiStreamLines
        (fun l => if l = "x" then
          some (.obj [("choices", .arr [.obj [("delta", .obj [("content", .str "Hi")])]])])
        else none)
        ["data: x", "zzz"] :=
  (sentinel_termination
    (fun l => if l = "x" then
      some (.obj [("choices", .arr [.obj [("delta", .obj [("content", .str "Hi")])]])])
    else none)
    ["data: x", "zzz"] ["data: x"] "data: [DONE]" (by decide) (by decide)).1

/-- C8 (counterexample): in non-streaming mode a 2xx body that is not valid
JSON does **not** yield empty content — `response.json()` raises, the
handler returns the `"解析响应时出错：..."` error string, and that non-empty
string becomes the reply. -/
theorem nonstream_decode_error_not_empty :
    openaiGenerateNonStream
      (.resp ⟨200, "not json", [], none, "Expecting value"⟩) =
      "解析响应时出错：Expecting value" ∧
    openaiGenerateNonStream
      (.resp ⟨200, "not json", [], none, "Expecting value"⟩) ≠ "" := by
  decide

/-- C8 (amended): in streaming mode a line that is not valid JSON, or whose
JSON lacks `choices[0].delta.content` (or has it empty), yields no fragment
and does not abort the sequence — the remaining lines produce exactly the
fragments they would produce without it.  In non-streaming mode a 2xx body
that decodes to a JSON object without a `choices` key, or with an empty
`choices` list, yields the empty string; a body that is not valid JSON, or
that decodes to a non-container value such as a number (where the
membership test itself raises), or whose first choice lacks
`message.content`, yields a `"解析响应时出错：..."` error string, not empty
content. -/
theorem decode_error_tolerance (parse : String → Option Json)
    (pre post : List String) (bad : String) (r : HttpResponse)
    (hbad : stripDataTag bad ≠ "[DONE]")
    (hskip : bad = "" ∨ parse (stripDataTag bad) = none ∨
      ∃ jb, parse (stripDataTag bad) = some jb ∧ streamLineFragment jb = none) :
    (openaiStreamLines parse (pre ++ bad :: post) =
      openaiStreamLines parse (pre ++ post)) ∧
    (r.statusCode = 200 → r.jsonBody = none →
      openaiGenerateNonStream (.resp r) = "解析响应时出错：" ++ r.jsonErr) ∧
    (∀ fields, r.statusCode = 200 → r.jsonBody = some (.obj fields) →
      jGet (.obj fields) "choices" = none →
      openaiGenerateNonStream (.resp r) = "") ∧
    (∀ j, r.statusCode = 200 → r.jsonBody = some j →
      jGet j "choices" = some (.arr []) →
      openaiGenerateNonStream (.resp r) = "") ∧
    (∀ j c0 cs, r.statusCode = 200 → r.jsonBody = some j →
      jGet j "choices" = some (.arr (c0 :: cs)) →
      (jGet c0 "message" = none ∨
        ∃ m, jGet c0 "message" = some m ∧ jGet m "content" = none) →
      pyStartswith (openaiGenerateNonStream (.resp r)) "解析响应时出错：" = true) ∧
    (∀ n : Int, r.statusCode = 200 → r.jsonBody = some (.num n) →
      pyStartswith (openaiGenerateNonStream (.resp r)) "解析响应时出错：" = true) := by
  have hfrags : lineFrags parse bad = [] := by
    rcases hskip with hb | hb | ⟨jb, hb1, hb2⟩
    · simp [lineFrags, hb]
    · by_cases hbe : bad = "" <;> simp [lineFrags, hbe, hb]
    · by_cases hbe : bad = "" <;> simp [lineFrags, hbe, hb1, hb2]
  refine ⟨?_, ?_, ?_, ?_, ?_, ?_⟩
  · induction pre with
    | nil =>
      rw [List.nil_append, List.nil_append,
        openaiStreamLines_cons parse bad post hbad, hfrags, List.nil_append]
    | cons l pre ih =>
      by_cases hl : stripDataTag l = "[DONE]"
      · rw [List.cons_append, List.cons_append,
          openaiStreamLines_sentinel parse l _ hl,
          openaiStreamLines_sentinel parse l _ hl]
      · rw [List.cons_append, List.cons_append,
          openaiStreamLines_cons parse l _ hl,
          openaiStreamLines_cons parse l _ hl, ih]
  · intro h200 hnone
    simp [openaiGenerateNonStream, openaiNonStreamExtract, h200, hnone]
  · intro fields h200 hsome hchoices
    simp [openaiGenerateNonStream, openaiNonStreamExtract, h200, hsome, hchoices]
  · intro j h200 hsome hchoices
    cases j with
    | obj fields =>
      simp [openaiGenerateNonStream, openaiNonStreamExtract,
        openaiChoicesExtract, h200, hsome, hchoices]
    | null => simp [jGet] at hchoices
    | str s => simp [jGet] at hchoices
    | num n => simp [jGet] at hchoices
    | bool b => simp [jGet] at hchoices
    | arr xs => simp [jGet] at hchoices
  · intro j c0 cs h200 hsome hchoices hmiss
    cases j with
    | obj fields =>
      rcases hmiss with hm | ⟨m, hm1, hm2⟩
      · simp [openaiGenerateNonStream, openaiNonStreamExtract,
          openaiChoicesExtract, h200, hsome, hchoices, hm]
        decide
      · simp [openaiGenerateNonStream, openaiNonStreamExtract,
          openaiChoicesExtract, h200, hsome, hchoices, hm1, hm2]
        decide
    | null => simp [jGet] at hchoices
    | str s => simp [jGet] at hchoices
    | num n => simp [jGet] at hchoices
    | bool b => simp [jGet] at hchoices
    | arr xs => simp [jGet] at hchoices
  · intro n h200 hsome
    simp [openaiGenerateNonStream, openaiNonStreamExtract, h200, hsome]
    decide

/-- Witness for C8's amended statement: an invalid line between two valid
`data: `-tagged lines drops out of the fragment sequence; a 2xx response
with an undecodable body yields the error string; an object body without
`choices`, and one with an empty `choices` list, yield the empty string; a
first choice without `message`, and a number body, yield error strings. -/
theorem decode_error_tolerance_witness :
    openaiStreamLines parseDemo (["data: ok"] ++ "data: bad" :: ["data: ok"]) =
      openaiStreamLines parseDemo (["data: ok"] ++ ["data: ok"]) ∧
    openaiGenerateNonStream (.resp ⟨200, "not json", [], none, "Expecting value"⟩) =
      "解析响应时出错：" ++ "Expecting value" ∧
    openaiGenerateNonStream
      (.resp ⟨200, "", [], some (.obj [("id", .str "x")]), ""⟩) = "" ∧
    openaiGenerateNonStream
      (.resp ⟨200, "", [], some (.obj [("choices", .arr [])]), ""⟩) = "" ∧
    pyStartswith
      (openaiGenerateNonStream
        (.resp ⟨200, "", [], some (.obj [("choices", .arr [.obj []])]), ""⟩))
      "解析响应时出错：" = true ∧
    pyStartswith (openaiGenerateNonStream (.resp ⟨200, "42", [], some (.num 42), ""⟩))
      "解析响应时出错：" = true :=
  ⟨(decode_error_tolerance parseDemo ["data: ok"] ["data: ok"] "data: bad"
      ⟨200, "", [], none, ""⟩ (by decide) (Or.inr (Or.inl rfl))).1,
   (decode_error_tolerance parseDemo [] [] "z"
      ⟨200, "not json", [], none, "Expecting value"⟩
      (by decide) (Or.inr (Or.inl rfl))).2.1 rfl rfl,
   (decode_error_tolerance parseDemo [] [] "z"
      ⟨200, "", [], some (.obj [("id", .str "x")]), ""⟩
      (by decide) (Or.inr (Or.inl rfl))).2.2.1 [("id", .str "x")] rfl rfl rfl,
   (decode_error_tolerance parseDemo [] [] "z"
      ⟨200, "", [], some (.obj [("choices", .arr [])]), ""⟩
      (by decide) (Or.inr (Or.inl rfl))).2.2.2.1 (.obj [("choices", .arr [])])
      rfl rfl rfl,
   (decode_error_tolerance parseDemo [] [] "z"
      ⟨200, "", [], some (.obj [("choices", .arr [.obj []])]), ""⟩
      (by decide) (Or.inr (Or.inl rfl))).2.2.2.2.1 (.obj [("choices", .arr [.obj []])])
      (.obj []) [] rfl rfl rfl (Or.inl rfl),
   (decode_error_tolerance parseDemo [] [] "z"
      ⟨200, "42", [], some (.num 42), ""⟩
      (by decide) (Or.inr (Or.inl rfl))).2.2.2.2.2 42 rfl rfl⟩

/-! ## Claim theorems: configuration and factory -/

theorem dispatchFamily_isSome (name : String) :
    (dispatchFamily name).isSome = true ↔
      (pyLower name = "openai" ∨ pyLower name = "deepseek" ∨
        pyLower name = "qwen") := by
  unfold dispatchFamily
  split_ifs with h1 h2 h3 <;> simp_all

/-- C5 (counterexample): resolving a provider whose stored key is empty,
with the key supplied by the environment, mutates the stored configuration
— the `openai` entry's `api_key` changes from `""` to the environment
value, because `get_model_config` returns a reference into the stored
`models` dict and `model_config["api_key"] = api_key` writes through it. -/
theorem get_model_instance_mutates_config :
    (get_model_instance "openai" cfgDemo envDemo).2 ≠ cfgDemo ∧
    get_model_config (get_model_instance "openai" cfgDemo envDemo).2 "openai" =
      some ⟨"sk-test", "gpt-3.5-turbo", "https://api.openai.com/v1/"⟩ := by
  decide

/-- C5 (amended): `get_model_instance` never persists configuration and
leaves the stored configuration unchanged in every case — entry absent,
entry with a non-empty key, or empty key with no usable environment
fallback — **except** the successful environment fallback, where the key
is written into the stored provider entry through the aliased dict. -/
theorem get_model_instance_frame (name : String) (config : Config) (env : Env) :
    (get_model_config config name = none →
      (get_model_instance name config env).2 = config) ∧
    (∀ mc, get_model_config config name = some mc → mc.api_key ≠ "" →
      (get_model_instance name config env).2 = config) ∧
    (∀ mc, get_model_config config name = some mc → mc.api_key = "" →
      (envGet env (pyUpper name ++ "_API_KEY") = none ∨
        envGet env (pyUpper name ++ "_API_KEY") = some "") →
      (get_model_instance name config env).2 = config) ∧
    (∀ mc k, get_model_config config name = some mc → mc.api_key = "" →
      envGet env (pyUpper name ++ "_API_KEY") = some k → k ≠ "" →
      (get_model_instance name config env).2 =
        { config with
            models := setModelEntry config.models name
              { mc with api_key := k } }) := by
  refine ⟨?_, ?_, ?_, ?_⟩
  · intro h
    simp [get_model_instance, h]
  · intro mc hmc hkey
    simp only [get_model_instance, hmc, if_neg hkey]
    cases dispatchFamily name <;> rfl
  · intro mc hmc hkey henv
    rcases henv with henv | henv <;>
      simp [get_model_instance, hmc, hkey, henv]
  · intro mc k hmc hkey henv hk
    simp only [get_model_instance, hmc, hkey, if_pos rfl, henv, if_neg hk]
    cases dispatchFamily name <;> rfl

/-- Witness for C5's amended statement: the unchanged case (non-empty
stored key) and the fallback case (stored key written). -/
theorem get_model_instance_frame_witness :
    (get_model_instance "openai"
        ⟨[("openai", ⟨"sk-stored", "gpt-4", "b"⟩)], ⟨false, "", ""⟩⟩ envDemo).2 =
      ⟨[("openai", ⟨"sk-stored", "gpt-4", "b"⟩)], ⟨false, "", ""⟩⟩ ∧
    (get_model_instance "openai" cfgDemo envDemo).2 =
      { cfgDemo with
          models := setModelEntry cfgDemo.models "openai"
            ⟨"sk-test", "gpt-3.5-turbo", "https://api.openai.com/v1/"⟩ } :=
  ⟨(get_model_instance_frame "openai"
      ⟨[("openai", ⟨"sk-stored", "gpt-4", "b"⟩)], ⟨false, "", ""⟩⟩ envDemo).2.1
      ⟨"sk-stored", "gpt-4", "b"⟩ rfl (by decide),
   (get_model_instance_frame "openai" cfgDemo envDemo).2.2.2
      ⟨"", "gpt-3.5-turbo", "https://api.openai.com/v1/"⟩ "sk-test"
      rfl rfl (by decide) (by decide)⟩

/-- C6 (confirmed): `get_model_instance` returns an adapter exactly when
the provider entry exists, a key is available (non-empty in the entry, or —
when the stored key is empty — a non-empty value of the environment
variable `NAME.upper() + "_API_KEY"`), and the lowercased name is one of
the three known families; in every other case it returns `None` (and,
being total, never raises).  When the fallback fires, the environment
value is the key the returned adapter carries. -/
theorem get_model_instance_resolution (name : String) (config : Config) (env : Env) :
    ((get_model_instance name config env).1.isSome = true ↔
      ∃ mc, get_model_config config name = some mc ∧
        (mc.api_key ≠ "" ∨
          ∃ k, envGet env (pyUpper name ++ "_API_KEY") = some k ∧ k ≠ "") ∧
        (pyLower name = "openai" ∨ pyLower name = "deepseek" ∨
          pyLower name = "qwen")) ∧
    (∀ inst mc, (get_model_instance name config env).1 = some inst →
      get_model_config config name = some mc → mc.api_key = "" →
      envGet env (pyUpper name ++ "_API_KEY") = some inst.config.api_key) := by
  cases hmc : get_model_config config name with
  | none =>
    refine ⟨⟨fun h => ?_, ?_⟩, fun inst mc hinst hmc2 _ => ?_⟩
    · rw [show (get_model_instance name config env).1 = none by
        simp [get_model_instance, hmc]] at h
      cases h
    · rintro ⟨mc, hmc2, _⟩
      cases hmc2
    · cases hmc2
  | some mc =>
    by_cases hkey : mc.api_key = ""
    · cases henv : envGet env (pyUpper name ++ "_API_KEY") with
      | none =>
        have hnone : (get_model_instance name config env).1 = none := by
          simp [get_model_instance, hmc, hkey, henv]
        refine ⟨⟨fun h => ?_, ?_⟩, fun inst mc2 hinst _ _ => ?_⟩
        · rw [hnone] at h; cases h
        · rintro ⟨mc2, hmc2, hk, _⟩
          injection hmc2 with hmc3
          subst hmc3
          rcases hk with hk | ⟨k, hk1, _⟩
          · exact absurd hkey hk
          · cases hk1
        · rw [hnone] at hinst; cases hinst
      | some k =>
        by_cases hk0 : k = ""
        · have hnone : (get_model_instance name config env).1 = none := by
            simp [get_model_instance, hmc, hkey, henv, hk0]
          refine ⟨⟨fun h => ?_, ?_⟩, fun inst mc2 hinst _ _ => ?_⟩
          · rw [hnone] at h; cases h
          · rintro ⟨mc2, hmc2, hk, _⟩
            injection hmc2 with hmc3
            subst hmc3
            rcases hk with hk | ⟨k2, hk1, hk2⟩
            · exact absurd hkey hk
            · injection hk1 with hk3
              subst hk3
              exact absurd hk0 hk2
          · rw [hnone] at hinst; cases hinst
        · refine ⟨⟨fun h => ?_, fun h => ?_⟩, fun inst mc2 hinst hmc2 _ => ?_⟩
          · refine ⟨mc, rfl, Or.inr ⟨k, rfl, hk0⟩, ?_⟩
            rw [← dispatchFamily_isSome]
            cases hd : dispatchFamily name with
            | none =>
              exfalso
              rw [show (get_model_instance name config env).1 = none by
                simp [get_model_instance, hmc, hkey, henv, hk0, hd]] at h
              cases h
            | some fam => rfl
          · rcases h with ⟨mc2, hmc2, hkv, hfam⟩
            rw [← dispatchFamily_isSome] at hfam
            cases hd : dispatchFamily name with
            | none => rw [hd] at hfam; cases hfam
            | some fam => simp [get_model_instance, hmc, hkey, henv, hk0, hd]
          · cases hd : dispatchFamily name with
            | none =>
              rw [show (get_model_instance name config env).1 = none by
                simp [get_model_instance, hmc, hkey, henv, hk0, hd]] at hinst
              cases hinst
            | some fam =>
              have hsome : (get_model_instance name config env).1 =
                  some ⟨fam, { mc with api_key := k }, config.proxy⟩ := by
                simp [get_model_instance, hmc, hkey, henv, hk0, hd]
              rw [hsome] at hinst
              injection hinst with hi
              rw [← hi]
    · refine ⟨⟨fun h => ?_, fun h => ?_⟩, fun inst mc2 hinst hmc2 hk2 => ?_⟩
      · refine ⟨mc, rfl, Or.inl hkey, ?_⟩
        rw [← dispatchFamily_isSome]
        cases hd : dispatchFamily name with
        | none =>
          exfalso
          rw [show (get_model_instance name config env).1 = none by
            simp [get_model_instance, hmc, hkey, hd]] at h
          cases h
        | some fam => rfl
      · rcases h with ⟨mc2, hmc2, hkv, hfam⟩
        rw [← dispatchFamily_isSome] at hfam
        cases hd : dispatchFamily name with
        | none => rw [hd] at hfam; cases hfam
        | some fam => simp [get_model_instance, hmc, hkey, hd]
      · injection hmc2 with hmc3
        subst hmc3
        exact absurd hk2 hkey

/-- Witness for C6: the environment-fallback resolution succeeds for the
`openai` entry of the demo configuration, and the adapter carries the
environment-supplied key. -/
theorem get_model_instance_resolution_witness :
    (get_model_instance "openai" cfgDemo envDemo).1.isSome = true ∧
    envGet envDemo (pyUpper "openai" ++ "_API_KEY") =
      some (⟨.openai, ⟨"sk-test", "gpt-3.5-turbo", "https://api.openai.com/v1/"⟩,
        ⟨false, "", ""⟩⟩ : ModelInstance).config.api_key :=
  ⟨(get_model_instance_resolution "openai" cfgDemo envDemo).1.mpr
     ⟨⟨"", "gpt-3.5-turbo", "https://api.openai.com/v1/"⟩, rfl,
      Or.inr ⟨"sk-test", by decide, by decide⟩, Or.inl (by decide)⟩,
   (get_model_instance_resolution "openai" cfgDemo envDemo).2
     ⟨.openai, ⟨"sk-test", "gpt-3.5-turbo", "https://api.openai.com/v1/"⟩,
       ⟨false, "", ""⟩⟩
     ⟨"", "gpt-3.5-turbo", "https://api.openai.com/v1/"⟩
     (by decide) rfl rfl⟩
